import Mathlib

/-!
Shallow embedding of the NRF operator charm (src/src/charm.py).

The charm is a set of event handlers mutating externally-owned state:
the workload container (filesystem, pebble plan), the relation data bag,
and the unit status.  We model that external state as an explicit
`CharmState` record and each handler as a state-transforming function
translated line by line from the Python source.
-/

namespace NRFOperator

/-- Unit status values (ops.model ActiveStatus / BlockedStatus / WaitingStatus). -/
inductive UnitStatus where
  | blocked (msg : String)
  | waiting (msg : String)
  | active
deriving DecidableEq, Repr

/-- One pebble service entry, as built in `_pebble_layer`. -/
structure ServiceSpec where
  override : String
  startup : String
  command : String
  environment : List (String × String)
deriving DecidableEq, Repr

/-- A pebble layer, as built in `_pebble_layer`. -/
structure Layer where
  summary : String
  description : String
  services : List (String × ServiceSpec)
deriving DecidableEq, Repr

/-- The observable state a handler invocation reads and writes:
    inputs (relation presence, container reachability, config-file
    presence, service state, naming) plus the externally-owned outputs
    (status writes, pebble plan, published relation payload, deferral
    count, replan count, pushed config content). -/
structure CharmState where
  databaseRelationCreated : Bool
  canConnect : Bool
  configFileExists : Bool
  serviceDeclared : Bool
  serviceRunning : Bool
  appName : String
  modelName : String
  statusWrites : List UnitStatus
  plan : Option Layer
  relationUrl : Option String
  deferrals : Nat
  replanCount : Nat
  configContent : Option String
deriving DecidableEq, Repr

/-- `BASE_CONFIG_PATH` constant of charm.py. -/
def BASE_CONFIG_PATH : String := "/etc/nrf"

/-- `CONFIG_FILE_NAME` constant of charm.py. -/
def CONFIG_FILE_NAME : String := "nrfcfg.yaml"

/-- `DATABASE_NAME` constant of charm.py. -/
def DATABASE_NAME : String := "free5gc"

/-- Full path of the config file pushed to the container. -/
def configFilePath : String := BASE_CONFIG_PATH ++ "/" ++ CONFIG_FILE_NAME

/-- `self.unit.status = st`: append to the write log; the current
    status is the last write. -/
def setStatus (s : CharmState) (st : UnitStatus) : CharmState :=
  { s with statusWrites := s.statusWrites ++ [st] }

/-- The status visible externally: the last write, if any. -/
def currentStatus (s : CharmState) : Option UnitStatus :=
  s.statusWrites.getLast?

/-- `event.defer()`: request redelivery of the current event. -/
def deferEvent (s : CharmState) : CharmState :=
  { s with deferrals := s.deferrals + 1 }

/-- `_database_relation_is_created` / `_relation_created("database")`. -/
def databaseRelationIsCreated (s : CharmState) : Bool :=
  s.databaseRelationCreated

/-- `_config_file_is_written`: whether the config file exists in the
    workload container. -/
def configFileIsWritten (s : CharmState) : Bool :=
  s.configFileExists

/-- `_environment_variables`: the fixed five-entry environment mapping. -/
def environmentVariables : List (String × String) :=
  [ ("GRPC_GO_LOG_VERBOSITY_LEVEL", "99"),
    ("GRPC_GO_LOG_SEVERITY_LEVEL", "info"),
    ("GRPC_TRACE", "all"),
    ("GRPC_VERBOSITY", "debug"),
    ("MANAGED_BY_CONFIG_POD", "true") ]

/-- `_pebble_layer`: the declarative supervision plan. -/
def pebbleLayer : Layer :=
  { summary := "nrf layer",
    description := "pebble config layer for nrf",
    services :=
      [ ("nrf",
         { override := "replace",
           startup := "enabled",
           command := "nrf --nrfcfg " ++ BASE_CONFIG_PATH ++ "/" ++ CONFIG_FILE_NAME,
           environment := environmentVariables }) ] }

/-- `container.add_layer("nrf", layer, combine=True)`: with a single
    layer name the combined plan is that layer's services. -/
def addLayer (s : CharmState) (l : Layer) : CharmState :=
  { s with plan := some l }

/-- `container.replan()`: apply the declared plan. -/
def replan (s : CharmState) : CharmState :=
  { s with replanCount := s.replanCount + 1 }

/-- `_nrf_url`: the published endpoint, derived from app and model name. -/
def nrfUrl (s : CharmState) : String :=
  "http://" ++ s.appName ++ "." ++ s.modelName ++ ".svc.cluster.local:29510"

/-- `_update_nrf_relation`, via `NRFProvides.set_info(url=...)`.
    Modelled from the spec: the `set_info` implementation lives in
    `charms/nrf_operator/v0/nrf.py`, which is not under src/; per the
    spec it publishes the single key `url` mapped to the endpoint URL
    into the nrf relation payload. -/
def updateNrfRelation (s : CharmState) : CharmState :=
  { s with relationUrl := some (nrfUrl s) }

/-- `_nrf_service_is_running`: false when the container is unreachable;
    `get_service` raising `ModelError` (service not declared) is caught
    and treated as not running; otherwise the supervisor's answer. -/
def nrfServiceIsRunning (s : CharmState) : Bool :=
  if ¬ s.canConnect then false
  else if ¬ s.serviceDeclared then false
  else if ¬ s.serviceRunning then false
  else true

/-- One logger section of the rendered config file (constant fields). -/
def loggerSection (n : String) : String :=
  "  " ++ n ++ ":\n    ReportCaller: false\n    debugLevel: info"

/-- The logger component names appearing in the fixed template. -/
def loggerNames : List String :=
  [ "AMF", "AUSF", "Aper", "CommonConsumerTest", "FSM", "MongoDBLibrary",
    "N3IWF", "NAS", "NGAP", "NRF", "NamfComm", "NamfEventExposure",
    "NsmfPDUSession", "NudrDataRepository", "OpenApi", "PCF", "PFCP",
    "PathUtil", "SMF", "UDM", "UDR", "WEBUI" ]

/-- Rendering of `src/templates/nrfcfg.yaml.j2` with
    `database_name = DATABASE_NAME` and `database_url = databaseUrl`.
    Modelled from the spec: the template file itself is not under src/;
    the content is fixed by the spec ("rendered from a fixed template
    with two substituted values") and pinned verbatim by the expected
    push payload in tests/unit/test_charm.py. -/
def renderConfig (databaseUrl : String) : String :=
  "configuration:\n  DefaultPlmnId:\n    mcc: \"208\"\n    mnc: \"93\"\n  MongoDBName: "
    ++ DATABASE_NAME ++ "\n  MongoDBUrl: " ++ databaseUrl
    ++ "\n  mongoDBStreamEnable: true\n  mongodb:\n    name: " ++ DATABASE_NAME
    ++ "\n    url: " ++ databaseUrl
    ++ "\n  nfKeepAliveTime: 60\n  nfProfileExpiryEnable: true\n  sbi:\n    bindingIPv4: 0.0.0.0\n    port: 29510\n    registerIPv4: nrf\n    scheme: http\n  serviceNameList:\n  - nnrf-nfm\n  - nnrf-disc\ninfo:\n  description: NRF initial local configuration\n  version: 1.0.0\nlogger:\n"
    ++ String.intercalate "\n" (loggerNames.map loggerSection)

/-- `_write_config_file`: render the template and push the result to
    the container at the config path (after which the file exists). -/
def writeConfigFile (s : CharmState) (databaseUrl : String) : CharmState :=
  { s with configContent := some (renderConfig databaseUrl),
           configFileExists := true }

/-- `_on_nrf_pebble_ready`: the convergence routine (guards in source
    order, short-circuiting). -/
def onNrfPebbleReady (s : CharmState) : CharmState :=
  if ¬ databaseRelationIsCreated s then
    setStatus s (.blocked "Waiting for database relation to be created")
  else if ¬ s.canConnect then
    deferEvent (setStatus s (.waiting "Waiting for container to be ready"))
  else if ¬ configFileIsWritten s then
    setStatus s (.waiting "Waiting for config file to be written")
  else
    updateNrfRelation (setStatus (replan (addLayer s pebbleLayer)) .active)

/-- Python's `str.split(",")` on a character list: the comma-separated
    pieces, with `[[]]` for the empty string (as Python returns `[""]`). -/
def splitOnComma : List Char → List (List Char)
  | [] => [[]]
  | c :: cs =>
    if c = ',' then [] :: splitOnComma cs
    else
      match splitOnComma cs with
      | [] => [[c]]
      | p :: ps => (c :: p) :: ps

/-- `event.uris.split(",")[0]`: the first element of the comma split. -/
def firstUri (uris : String) : String :=
  String.mk ((splitOnComma uris.toList).headD [])

/-- `_on_database_created`: requires a reachable container (else
    Waiting + defer); writes the config file from the first URI of the
    event's comma-separated list; then runs the convergence routine. -/
def onDatabaseCreated (uris : String) (s : CharmState) : CharmState :=
  if ¬ s.canConnect then
    deferEvent (setStatus s (.waiting "Waiting for container to be ready"))
  else
    onNrfPebbleReady (writeConfigFile s (firstUri uris))

/-- `_on_nrf_relation_joined`: publish the endpoint only when the
    service is confirmed running. -/
def onNrfRelationJoined (s : CharmState) : CharmState :=
  if ¬ nrfServiceIsRunning s then s
  else updateNrfRelation s

/-- A concrete state used to instantiate hypotheses of the theorems. -/
def testState : CharmState :=
  { databaseRelationCreated := true,
    canConnect := true,
    configFileExists := true,
    serviceDeclared := true,
    serviceRunning := true,
    appName := "nrf",
    modelName := "m",
    statusWrites := [],
    plan := none,
    relationUrl := none,
    deferrals := 0,
    replanCount := 0,
    configContent := none }

/-- The four status values any handler may write. -/
def allowedStatuses : List UnitStatus :=
  [ .blocked "Waiting for database relation to be created",
    .waiting "Waiting for container to be ready",
    .waiting "Waiting for config file to be written",
    .active ]

/-- The convergence routine never touches the pushed config content. -/
lemma onNrfPebbleReady_configContent (s : CharmState) :
    (onNrfPebbleReady s).configContent = s.configContent := by
  cases hdb : s.databaseRelationCreated <;> cases hcc : s.canConnect <;>
    cases hcf : s.configFileExists <;>
    simp [onNrfPebbleReady, databaseRelationIsCreated, configFileIsWritten,
      setStatus, deferEvent, updateNrfRelation, replan, addLayer, hdb, hcc, hcf]

/-- The convergence routine never changes its own guard inputs or the
    naming inputs. -/
lemma onNrfPebbleReady_inputs (s : CharmState) :
    (onNrfPebbleReady s).databaseRelationCreated = s.databaseRelationCreated ∧
    (onNrfPebbleReady s).canConnect = s.canConnect ∧
    (onNrfPebbleReady s).configFileExists = s.configFileExists ∧
    (onNrfPebbleReady s).appName = s.appName ∧
    (onNrfPebbleReady s).modelName = s.modelName := by
  cases hdb : s.databaseRelationCreated <;> cases hcc : s.canConnect <;>
    cases hcf : s.configFileExists <;>
    simp [onNrfPebbleReady, databaseRelationIsCreated, configFileIsWritten,
      setStatus, deferEvent, updateNrfRelation, replan, addLayer, hdb, hcc, hcf]

/-- C1: when the database relation is present, the container is
    reachable and the config file is present, the convergence routine
    applies the supervision plan with exactly the single service entry
    "nrf" (override=replace, startup=enabled, the fixed command string,
    the fixed five-key environment), sets the unit status to Active and
    publishes the endpoint URL. -/
theorem convergence_applies_plan_and_activates (s : CharmState)
    (h1 : databaseRelationIsCreated s = true)
    (h2 : s.canConnect = true)
    (h3 : configFileIsWritten s = true) :
    (onNrfPebbleReady s).plan = some pebbleLayer ∧
    pebbleLayer.services =
      [ ("nrf",
         { override := "replace",
           startup := "enabled",
           command := "nrf --nrfcfg /etc/nrf/nrfcfg.yaml",
           environment :=
             [ ("GRPC_GO_LOG_VERBOSITY_LEVEL", "99"),
               ("GRPC_GO_LOG_SEVERITY_LEVEL", "info"),
               ("GRPC_TRACE", "all"),
               ("GRPC_VERBOSITY", "debug"),
               ("MANAGED_BY_CONFIG_POD", "true") ] }) ] ∧
    (onNrfPebbleReady s).replanCount = s.replanCount + 1 ∧
    currentStatus (onNrfPebbleReady s) = some .active ∧
    (onNrfPebbleReady s).relationUrl = some (nrfUrl s) := by
  simp [databaseRelationIsCreated] at h1
  simp [configFileIsWritten] at h3
  refine ⟨?_, by decide, ?_, ?_, ?_⟩ <;>
    simp [onNrfPebbleReady, databaseRelationIsCreated, configFileIsWritten,
      h1, h2, h3, updateNrfRelation, setStatus, replan, addLayer,
      currentStatus, nrfUrl]

/-- Witness for C1 at a concrete state. -/
theorem convergence_applies_plan_and_activates_witness :
    databaseRelationIsCreated testState = true ∧
    testState.canConnect = true ∧
    configFileIsWritten testState = true ∧
    ((onNrfPebbleReady testState).plan = some pebbleLayer ∧
     currentStatus (onNrfPebbleReady testState) = some .active ∧
     (onNrfPebbleReady testState).relationUrl = some (nrfUrl testState)) :=
  ⟨rfl, rfl, rfl,
    (convergence_applies_plan_and_activates testState rfl rfl rfl).1,
    (convergence_applies_plan_and_activates testState rfl rfl rfl).2.2.2.1,
    (convergence_applies_plan_and_activates testState rfl rfl rfl).2.2.2.2⟩

/-- C2: when the database relation is absent, the convergence routine
    only writes the Blocked status and returns: no deferral, no plan
    application, no publication, regardless of every other input. -/
theorem convergence_blocked_without_database_relation (s : CharmState)
    (h : databaseRelationIsCreated s = false) :
    onNrfPebbleReady s =
      setStatus s (.blocked "Waiting for database relation to be created") ∧
    currentStatus (onNrfPebbleReady s) =
      some (.blocked "Waiting for database relation to be created") ∧
    (onNrfPebbleReady s).plan = s.plan ∧
    (onNrfPebbleReady s).replanCount = s.replanCount ∧
    (onNrfPebbleReady s).relationUrl = s.relationUrl ∧
    (onNrfPebbleReady s).deferrals = s.deferrals := by
  simp [onNrfPebbleReady, databaseRelationIsCreated] at h ⊢
  simp [h, setStatus, currentStatus]

/-- Witness for C2 at a concrete state. -/
theorem convergence_blocked_without_database_relation_witness :
    databaseRelationIsCreated { testState with databaseRelationCreated := false } = false ∧
    currentStatus (onNrfPebbleReady { testState with databaseRelationCreated := false }) =
      some (.blocked "Waiting for database relation to be created") ∧
    (onNrfPebbleReady { testState with databaseRelationCreated := false }).plan =
      ({ testState with databaseRelationCreated := false } : CharmState).plan :=
  ⟨rfl,
    (convergence_blocked_without_database_relation
      { testState with databaseRelationCreated := false } rfl).2.1,
    (convergence_blocked_without_database_relation
      { testState with databaseRelationCreated := false } rfl).2.2.1⟩

/-- C3: when the database relation is present but the container is not
    reachable, the convergence routine writes the Waiting status, defers
    the event and returns without applying the plan or publishing. -/
theorem convergence_waits_and_defers_when_unreachable (s : CharmState)
    (h1 : databaseRelationIsCreated s = true)
    (h2 : s.canConnect = false) :
    onNrfPebbleReady s =
      deferEvent (setStatus s (.waiting "Waiting for container to be ready")) ∧
    currentStatus (onNrfPebbleReady s) =
      some (.waiting "Waiting for container to be ready") ∧
    (onNrfPebbleReady s).deferrals = s.deferrals + 1 ∧
    (onNrfPebbleReady s).plan = s.plan ∧
    (onNrfPebbleReady s).replanCount = s.replanCount ∧
    (onNrfPebbleReady s).relationUrl = s.relationUrl := by
  simp [databaseRelationIsCreated] at h1
  simp [onNrfPebbleReady, databaseRelationIsCreated, h1, h2, deferEvent,
    setStatus, currentStatus]

/-- Witness for C3 at a concrete state. -/
theorem convergence_waits_and_defers_when_unreachable_witness :
    databaseRelationIsCreated { testState with canConnect := false } = true ∧
    ({ testState with canConnect := false } : CharmState).canConnect = false ∧
    (onNrfPebbleReady { testState with canConnect := false }).deferrals =
      ({ testState with canConnect := false } : CharmState).deferrals + 1 ∧
    (onNrfPebbleReady { testState with canConnect := false }).plan =
      ({ testState with canConnect := false } : CharmState).plan :=
  ⟨rfl, rfl,
    (convergence_waits_and_defers_when_unreachable
      { testState with canConnect := false } rfl rfl).2.2.1,
    (convergence_waits_and_defers_when_unreachable
      { testState with canConnect := false } rfl rfl).2.2.2.1⟩

/-- C8: when the database relation is present and the container is
    reachable but the config file is absent, the convergence routine
    writes the Waiting status for the config file and returns: it does
    not write the file, does not defer, does not apply the plan and
    publishes nothing. -/
theorem convergence_waits_for_config_file (s : CharmState)
    (h1 : databaseRelationIsCreated s = true)
    (h2 : s.canConnect = true)
    (h3 : configFileIsWritten s = false) :
    onNrfPebbleReady s =
      setStatus s (.waiting "Waiting for config file to be written") ∧
    currentStatus (onNrfPebbleReady s) =
      some (.waiting "Waiting for config file to be written") ∧
    (onNrfPebbleReady s).configContent = s.configContent ∧
    (onNrfPebbleReady s).configFileExists = false ∧
    (onNrfPebbleReady s).deferrals = s.deferrals ∧
    (onNrfPebbleReady s).plan = s.plan ∧
    (onNrfPebbleReady s).replanCount = s.replanCount ∧
    (onNrfPebbleReady s).relationUrl = s.relationUrl := by
  simp [databaseRelationIsCreated] at h1
  simp [configFileIsWritten] at h3
  simp [onNrfPebbleReady, databaseRelationIsCreated, configFileIsWritten,
    h1, h2, h3, setStatus, currentStatus]

/-- Witness for C8 at a concrete state. -/
theorem convergence_waits_for_config_file_witness :
    databaseRelationIsCreated { testState with configFileExists := false } = true ∧
    ({ testState with configFileExists := false } : CharmState).canConnect = true ∧
    configFileIsWritten { testState with configFileExists := false } = false ∧
    (onNrfPebbleReady { testState with configFileExists := false }).plan =
      ({ testState with configFileExists := false } : CharmState).plan ∧
    (onNrfPebbleReady { testState with configFileExists := false }).deferrals =
      ({ testState with configFileExists := false } : CharmState).deferrals :=
  ⟨rfl, rfl, rfl,
    (convergence_waits_for_config_file
      { testState with configFileExists := false } rfl rfl rfl).2.2.2.2.2.1,
    (convergence_waits_for_config_file
      { testState with configFileExists := false } rfl rfl rfl).2.2.2.2.1⟩

/-- The status value the convergence routine writes in each branch. -/
def statusWritten (s : CharmState) : UnitStatus :=
  if ¬ databaseRelationIsCreated s then
    .blocked "Waiting for database relation to be created"
  else if ¬ s.canConnect then .waiting "Waiting for container to be ready"
  else if ¬ configFileIsWritten s then .waiting "Waiting for config file to be written"
  else .active

/-- The convergence routine appends exactly one status write. -/
lemma onNrfPebbleReady_statusWrites (s : CharmState) :
    (onNrfPebbleReady s).statusWrites = s.statusWrites ++ [statusWritten s] := by
  cases hdb : s.databaseRelationCreated <;> cases hcc : s.canConnect <;>
    cases hcf : s.configFileExists <;>
    simp [onNrfPebbleReady, statusWritten, databaseRelationIsCreated,
      configFileIsWritten, setStatus, deferEvent, updateNrfRelation, replan,
      addLayer, hdb, hcc, hcf]

/-- Every status the convergence routine writes is one of the four
    fixed values. -/
lemma statusWritten_mem (s : CharmState) : statusWritten s ∈ allowedStatuses := by
  cases hdb : s.databaseRelationCreated <;> cases hcc : s.canConnect <;>
    cases hcf : s.configFileExists <;>
    simp [statusWritten, databaseRelationIsCreated, configFileIsWritten,
      allowedStatuses, hdb, hcc, hcf]

/-- C4: a database-created event with an unreachable container sets
    Waiting and defers without writing the config file; with a reachable
    container it writes the config file rendered from the fixed template
    with the first URI of the comma-separated list substituted, and then
    runs the full convergence routine on the updated state. -/
theorem database_created_writes_config_then_converges (uris : String) (s : CharmState) :
    (s.canConnect = false →
      onDatabaseCreated uris s =
        deferEvent (setStatus s (.waiting "Waiting for container to be ready")) ∧
      (onDatabaseCreated uris s).configContent = s.configContent ∧
      (onDatabaseCreated uris s).configFileExists = s.configFileExists) ∧
    (s.canConnect = true →
      onDatabaseCreated uris s = onNrfPebbleReady (writeConfigFile s (firstUri uris)) ∧
      (onDatabaseCreated uris s).configContent =
        some (renderConfig (firstUri uris))) := by
  constructor
  · intro h
    simp [onDatabaseCreated, h, deferEvent, setStatus]
  · intro h
    have he : onDatabaseCreated uris s =
        onNrfPebbleReady (writeConfigFile s (firstUri uris)) := by
      simp [onDatabaseCreated, h]
    refine ⟨he, ?_⟩
    rw [he, onNrfPebbleReady_configContent]
    simp [writeConfigFile]

/-- Witness for C4 at a concrete event and two concrete states. -/
theorem database_created_writes_config_then_converges_witness :
    testState.canConnect = true ∧
    (onDatabaseCreated "1.2.3.4:1234,5.6.7.8:1111" testState).configContent =
      some (renderConfig "1.2.3.4:1234") ∧
    ({ testState with canConnect := false } : CharmState).canConnect = false ∧
    (onDatabaseCreated "1.2.3.4:1234,5.6.7.8:1111"
      { testState with canConnect := false }).configContent = none := by
  have hf : firstUri "1.2.3.4:1234,5.6.7.8:1111" = "1.2.3.4:1234" := by decide
  refine ⟨rfl, ?_, rfl, ?_⟩
  · have h := ((database_created_writes_config_then_converges
      "1.2.3.4:1234,5.6.7.8:1111" testState).2 rfl).2
    rw [h, hf]
  · have h := ((database_created_writes_config_then_converges
      "1.2.3.4:1234,5.6.7.8:1111" { testState with canConnect := false }).1 rfl).2.1
    rw [h]
    rfl

/-- C5: no handler ever ends with the plan freshly applied while the
    config file is absent: a replan by the convergence routine or the
    database-created handler implies the config file is present, and the
    relation-joined handler never replans. -/
theorem plan_applied_only_with_config_present (uris : String) (s : CharmState) :
    ((onNrfPebbleReady s).replanCount ≠ s.replanCount →
      (onNrfPebbleReady s).configFileExists = true) ∧
    ((onDatabaseCreated uris s).replanCount ≠ s.replanCount →
      (onDatabaseCreated uris s).configFileExists = true) ∧
    (onNrfRelationJoined s).replanCount = s.replanCount := by
  refine ⟨?_, ?_, ?_⟩
  · cases hdb : s.databaseRelationCreated <;> cases hcc : s.canConnect <;>
      cases hcf : s.configFileExists <;>
      simp [onNrfPebbleReady, databaseRelationIsCreated, configFileIsWritten,
        setStatus, deferEvent, updateNrfRelation, replan, addLayer, hdb, hcc, hcf]
  · cases hcc : s.canConnect
    · simp [onDatabaseCreated, hcc, deferEvent, setStatus]
    · cases hdb : s.databaseRelationCreated <;>
        simp [onDatabaseCreated, hcc, writeConfigFile, onNrfPebbleReady,
          databaseRelationIsCreated, configFileIsWritten, setStatus, deferEvent,
          updateNrfRelation, replan, addLayer, hdb]
  · cases hr : nrfServiceIsRunning s <;>
      simp [onNrfRelationJoined, hr, updateNrfRelation]

/-- Witness for C5 at a concrete state. -/
theorem plan_applied_only_with_config_present_witness :
    (onNrfPebbleReady testState).replanCount ≠ testState.replanCount ∧
    (onNrfPebbleReady testState).configFileExists = true :=
  ⟨by decide,
    (plan_applied_only_with_config_present "1.2.3.4:1234" testState).1 (by decide)⟩

/-- C6: running the convergence routine a second time on the state the
    first run produced yields the same supervision plan and the same
    published relation payload as running it once. -/
theorem convergence_idempotent (s : CharmState) :
    (onNrfPebbleReady (onNrfPebbleReady s)).plan = (onNrfPebbleReady s).plan ∧
    (onNrfPebbleReady (onNrfPebbleReady s)).relationUrl =
      (onNrfPebbleReady s).relationUrl := by
  cases hdb : s.databaseRelationCreated <;> cases hcc : s.canConnect <;>
    cases hcf : s.configFileExists <;>
    simp [onNrfPebbleReady, databaseRelationIsCreated, configFileIsWritten,
      setStatus, deferEvent, updateNrfRelation, replan, addLayer, nrfUrl,
      hdb, hcc, hcf]

/-- C7: the nrf-relation-joined handler is a no-op unless the service is
    confirmed running (in particular whenever the container is
    unreachable the service does not count as running); when the service
    is running it publishes the endpoint URL built from the app and
    model names. -/
theorem relation_joined_publishes_only_when_running (s : CharmState) :
    (nrfServiceIsRunning s = false → onNrfRelationJoined s = s) ∧
    (s.canConnect = false → nrfServiceIsRunning s = false) ∧
    (nrfServiceIsRunning s = true →
      onNrfRelationJoined s = updateNrfRelation s ∧
      (onNrfRelationJoined s).relationUrl =
        some ("http://" ++ s.appName ++ "." ++ s.modelName
          ++ ".svc.cluster.local:29510")) := by
  refine ⟨?_, ?_, ?_⟩
  · intro h
    simp [onNrfRelationJoined, h]
  · intro h
    simp [nrfServiceIsRunning, h]
  · intro h
    exact ⟨by simp [onNrfRelationJoined, h],
      by simp [onNrfRelationJoined, h, updateNrfRelation, nrfUrl]⟩

/-- Witness for C7 at two concrete states. -/
theorem relation_joined_publishes_only_when_running_witness :
    nrfServiceIsRunning { testState with canConnect := false } = false ∧
    onNrfRelationJoined { testState with canConnect := false } =
      { testState with canConnect := false } ∧
    nrfServiceIsRunning testState = true ∧
    (onNrfRelationJoined testState).relationUrl =
      some "http://nrf.m.svc.cluster.local:29510" := by
  refine ⟨rfl, ?_, rfl, ?_⟩
  · exact (relation_joined_publishes_only_when_running
      { testState with canConnect := false }).1 rfl
  · have h := ((relation_joined_publishes_only_when_running testState).2.2 rfl).2
    rw [h]
    rfl

/-- C9: the running-service query returns false when the container is
    unreachable or the service is not declared (the supervisor raising a
    model error is caught), and returns true exactly when the container
    is reachable, the service is declared and the supervisor reports it
    running. -/
theorem service_running_query_never_errors (s : CharmState) :
    (s.canConnect = false → nrfServiceIsRunning s = false) ∧
    (s.serviceDeclared = false → nrfServiceIsRunning s = false) ∧
    (nrfServiceIsRunning s = true ↔
      s.canConnect = true ∧ s.serviceDeclared = true ∧ s.serviceRunning = true) := by
  cases h1 : s.canConnect <;> cases h2 : s.serviceDeclared <;>
    cases h3 : s.serviceRunning <;> simp [nrfServiceIsRunning, h1, h2, h3]

/-- Witness for C9 at concrete states. -/
theorem service_running_query_never_errors_witness :
    ({ testState with canConnect := false } : CharmState).canConnect = false ∧
    nrfServiceIsRunning { testState with canConnect := false } = false ∧
    ({ testState with serviceDeclared := false } : CharmState).serviceDeclared = false ∧
    nrfServiceIsRunning { testState with serviceDeclared := false } = false :=
  ⟨rfl,
    (service_running_query_never_errors { testState with canConnect := false }).1 rfl,
    rfl,
    (service_running_query_never_errors
      { testState with serviceDeclared := false }).2.1 rfl⟩

/-- C10: each handler invocation that runs to completion appends at
    most one status write, every written status is one of the four fixed
    values, and the nrf-relation-joined handler writes no status at
    all. -/
theorem handlers_write_status_at_most_once (uris : String) (s : CharmState) :
    (∃ w, (onNrfPebbleReady s).statusWrites = s.statusWrites ++ w ∧
      w.length ≤ 1 ∧ ∀ x ∈ w, x ∈ allowedStatuses) ∧
    (∃ w, (onDatabaseCreated uris s).statusWrites = s.statusWrites ++ w ∧
      w.length ≤ 1 ∧ ∀ x ∈ w, x ∈ allowedStatuses) ∧
    (onNrfRelationJoined s).statusWrites = s.statusWrites := by
  refine ⟨⟨[statusWritten s], onNrfPebbleReady_statusWrites s, by simp,
    by simpa using statusWritten_mem s⟩, ?_, ?_⟩
  · cases hcc : s.canConnect
    · exact ⟨[.waiting "Waiting for container to be ready"],
        by simp [onDatabaseCreated, hcc, deferEvent, setStatus],
        by simp, by simp [allowedStatuses]⟩
    · refine ⟨[statusWritten (writeConfigFile s (firstUri uris))], ?_,
        by simp, by simpa using statusWritten_mem _⟩
      have he : onDatabaseCreated uris s =
          onNrfPebbleReady (writeConfigFile s (firstUri uris)) := by
        simp [onDatabaseCreated, hcc]
      rw [he, onNrfPebbleReady_statusWrites]
      simp [writeConfigFile]
  · cases hr : nrfServiceIsRunning s <;>
      simp [onNrfRelationJoined, hr, updateNrfRelation]

/-- Witness for C10 at a concrete state and event. -/
theorem handlers_write_status_at_most_once_witness :
    (onNrfRelationJoined testState).statusWrites = testState.statusWrites :=
  (handlers_write_status_at_most_once "1.2.3.4:1234" testState).2.2

end NRFOperator
